import Mathlib

/-!
Verification of the business-chatbot application (`bussines_chatbot.py`).

The Python source is shallowly embedded below:

* SHA-256 (the behaviour of `hashlib.sha256(...).hexdigest()` on UTF-8 encoded
  strings) is implemented executably over `Nat`, words reduced modulo `2 ^ 32`.
* the static `users` table and `verify_password`;
* `BusinessChatbot` (`__init__`, `get_response`, `answer_business_question`,
  `brainstorm_ideas`): the single outbound HTTP POST is modelled by an oracle
  `http : HttpRequest → HttpOutcome` supplied as a parameter; `handleOutcome`
  models `raise_for_status` (which raises exactly for statuses 400–599),
  `response.json()` (`none` = malformed body), the `['choices'][0]['text']`
  extraction and `.strip()` (modelled by `pyStrip`; whitespace is modelled
  as `Char.isWhitespace`);
* the `main` page logic: the per-tab handlers (`qaTab`, `ideasTab`), the chat
  submission (`chatTurn`, where `none` models "no chat message submitted" and
  Python truthiness of the submitted string is the guard), and the session
  state machine (`loginSubmit`, `step`, `run`).  Handlers additionally return
  the list of HTTP requests they issue, so "no request is sent" is the trace
  being `[]`.
-/

/-! ## SHA-256 -/

def mask32 : Nat := 0xffffffff

def rotr (n w : Nat) : Nat := ((w >>> n) ||| (w <<< (32 - n))) &&& mask32

def bigSigma0 (x : Nat) : Nat := rotr 2 x ^^^ rotr 13 x ^^^ rotr 22 x

def bigSigma1 (x : Nat) : Nat := rotr 6 x ^^^ rotr 11 x ^^^ rotr 25 x

def smallSigma0 (x : Nat) : Nat := rotr 7 x ^^^ rotr 18 x ^^^ (x >>> 3)

def smallSigma1 (x : Nat) : Nat := rotr 17 x ^^^ rotr 19 x ^^^ (x >>> 10)

def chFn (x y z : Nat) : Nat := (x &&& y) ^^^ ((x ^^^ mask32) &&& z)

def majFn (x y z : Nat) : Nat := (x &&& y) ^^^ (x &&& z) ^^^ (y &&& z)

/-- The primes up to 311 (the first 64), by trial division. -/
def smallPrimes : List Nat :=
  (List.range 312).filter (fun n =>
    decide (2 ≤ n) && ((List.range n).drop 2).all (fun d => n % d != 0))

/-- Largest `c` with `c ^ e ≤ n`, found by binary search over the bits of `c`. -/
def powSearch (e n : Nat) : Nat → Nat → Nat
  | 0, acc => acc
  | b + 1, acc =>
    let c := acc + (1 <<< b)
    powSearch e n b (if c ^ e ≤ n then c else acc)

/-- The 64 SHA-256 round constants: the first 32 fractional bits of the cube
roots of the first 64 primes (FIPS 180-4 §4.2.2), computed from that
definition; `sha256hex_abc` below checks the result against the published
test vector. -/
def kTable : List Nat :=
  (smallPrimes.take 64).map (fun p => powSearch 3 (p <<< 96) 40 0 &&& mask32)

/-- The eight SHA-256 initial hash values: the first 32 fractional bits of the
square roots of the first 8 primes (FIPS 180-4 §5.3.3). -/
def h0Words : List Nat :=
  (smallPrimes.take 8).map (fun p => powSearch 2 (p <<< 64) 40 0 &&& mask32)

def beBytes8 (n : Nat) : List Nat :=
  [(n >>> 56) &&& 255, (n >>> 48) &&& 255, (n >>> 40) &&& 255, (n >>> 32) &&& 255,
   (n >>> 24) &&& 255, (n >>> 16) &&& 255, (n >>> 8) &&& 255, n &&& 255]

def padBytes (msg : List Nat) : List Nat :=
  let z := (64 - ((msg.length + 9) % 64)) % 64
  msg ++ [0x80] ++ List.replicate z 0 ++ beBytes8 (8 * msg.length)

def toWords : List Nat → List Nat
  | a :: b :: c :: d :: rest => ((((a <<< 8) ||| b) <<< 8 ||| c) <<< 8 ||| d) :: toWords rest
  | _ => []

/-- Message-schedule extension; `rws` is the schedule so far, most recent word first. -/
def extendW : Nat → List Nat → List Nat
  | 0, rws => rws
  | n + 1, rws =>
    let g := fun (k : Nat) => rws.getD k 0
    extendW n (((smallSigma1 (g 1) + g 6 + smallSigma0 (g 14) + g 15) &&& mask32) :: rws)

def rounds : List Nat → List (Nat × Nat) → List Nat
  | st, [] => st
  | st, (k, w) :: rest =>
    match st with
    | [a, b, c, d, e, f, g, h2] =>
      let t1 := (h2 + bigSigma1 e + chFn e f g + k + w) &&& mask32
      let t2 := (bigSigma0 a + majFn a b c) &&& mask32
      rounds [(t1 + t2) &&& mask32, a, b, c, (d + t1) &&& mask32, e, f, g] rest
    | _ => st

def compressBlock (hws : List Nat) (block : List Nat) : List Nat :=
  let w := (extendW 48 block.reverse).reverse
  let st := rounds hws (kTable.zip w)
  (hws.zip st).map (fun p => (p.1 + p.2) &&& mask32)

def sha256Loop : Nat → List Nat → List Nat → List Nat
  | 0, hws, _ => hws
  | n + 1, hws, ws => sha256Loop n (compressBlock hws (ws.take 16)) (ws.drop 16)

def sha256Words (msg : List Nat) : List Nat :=
  let padded := padBytes msg
  sha256Loop (padded.length / 64) h0Words (toWords padded)

def hexDigit (n : Nat) : Char :=
  if n < 10 then Char.ofNat (48 + n) else Char.ofNat (87 + n % 16)

def word8Hex (w : Nat) : List Char :=
  [hexDigit ((w >>> 28) &&& 15), hexDigit ((w >>> 24) &&& 15), hexDigit ((w >>> 20) &&& 15),
   hexDigit ((w >>> 16) &&& 15), hexDigit ((w >>> 12) &&& 15), hexDigit ((w >>> 8) &&& 15),
   hexDigit ((w >>> 4) &&& 15), hexDigit (w &&& 15)]

/-- UTF-8 encoding of a string, the bytes as `Nat`s (Python `str.encode()`). -/
def utf8Bytes (s : String) : List Nat :=
  s.data.flatMap (fun c =>
    let n := c.toNat
    if n < 128 then [n]
    else if n < 2048 then [192 ||| (n >>> 6), 128 ||| (n &&& 63)]
    else if n < 65536 then
      [224 ||| (n >>> 12), 128 ||| ((n >>> 6) &&& 63), 128 ||| (n &&& 63)]
    else
      [240 ||| (n >>> 18), 128 ||| ((n >>> 12) &&& 63), 128 ||| ((n >>> 6) &&& 63),
       128 ||| (n &&& 63)])

/-- `hashlib.sha256(s.encode()).hexdigest()`. -/
def sha256hex (s : String) : String :=
  ⟨(sha256Words (utf8Bytes s)).flatMap word8Hex⟩

/-! ## Credential verifier (`users`, `verify_password`) -/

def users : List (String × String) :=
  [("Moin", sha256hex "user1"),
   ("user2", sha256hex "password2")]

def verify_password (username password : String) : Bool :=
  match users.lookup username with
  | some stored => stored == sha256hex password
  | none => false

/-! ## JSON values, HTTP requests and outcomes -/

inductive JVal where
  | jstr (s : String)
  | jint (n : Nat)
  | jflt (q : ℚ)
  | jbool (b : Bool)
  | jarr (elems : List JVal)
  | jobj (fields : List (String × JVal))

structure HttpRequest where
  url : String
  bearer : String
  body : List (String × JVal)

/-- What `requests.post` delivers: an exception (network error) or a response
with a status code and a body (`none` = body that is not valid JSON). -/
inductive HttpOutcome where
  | netErr : HttpOutcome
  | resp (status : Nat) (body : Option JVal) : HttpOutcome

/-- `response.json()['choices'][0]['text']` when that evaluation raises no
exception and yields a string; `none` models every raising path. -/
def extractText : JVal → Option String
  | .jobj fields =>
    match fields.lookup "choices" with
    | some (.jarr (c :: _)) =>
      match c with
      | .jobj cf =>
        match cf.lookup "text" with
        | some (.jstr t) => some t
        | _ => none
      | _ => none
    | _ => none
  | _ => none

def errMsg : String :=
  "An error occurred while processing your request. Please try again later."

/-- Python `str.strip()`: drop leading and trailing whitespace. -/
def pyStrip (s : String) : String :=
  ⟨((s.data.dropWhile Char.isWhitespace).reverse.dropWhile Char.isWhitespace).reverse⟩

/-- The `try` block of `get_response` after `requests.post`:
`raise_for_status` raises exactly for statuses 400–599; then the JSON body is
parsed and `['choices'][0]['text'].strip()` is returned; any exception is
caught and the fallback string returned. -/
def handleOutcome : HttpOutcome → String
  | .netErr => errMsg
  | .resp status body =>
    if 400 ≤ status ∧ status < 600 then errMsg
    else
      match body with
      | none => errMsg
      | some j =>
        match extractText j with
        | some t => pyStrip t
        | none => errMsg

/-! ## BusinessChatbot -/

structure BusinessChatbot where
  api_key : String
  base_url : String

/-- Result of `BusinessChatbot.__init__`: `halted msgs` models the
`st.error`/`st.stop()` path (the emitted messages listed), taken when the key
is absent from the secrets store. -/
inductive InitOutcome where
  | halted (msgs : List String) : InitOutcome
  | ok (cb : BusinessChatbot) : InitOutcome

def initChatbot (secrets : List (String × String)) : InitOutcome :=
  match secrets.lookup "NVIDIA_API_KEY" with
  | none =>
    .halted ["NVIDIA_API_KEY not found in Streamlit secrets.",
             "Server configuration error. Please contact the administrator."]
  | some k => .ok ⟨k, "https://integrate.api.nvidia.com/v1"⟩

/-- The `data` dictionary of `get_response` (the JSON request body). -/
def requestBody (prompt : String) (maxTokens : Nat) : List (String × JVal) :=
  [("model", .jstr "nvidia/mistral-nemo-minitron-8b-base"),
   ("prompt", .jstr prompt),
   ("temperature", .jflt (0.7 : ℚ)),
   ("top_p", .jflt (0.95 : ℚ)),
   ("max_tokens", .jint maxTokens),
   ("stream", .jbool false)]

/-- The POST issued by `get_response`. -/
def mkRequest (cb : BusinessChatbot) (prompt : String) (maxTokens : Nat) : HttpRequest :=
  { url := cb.base_url ++ "/completions",
    bearer := cb.api_key,
    body := requestBody prompt maxTokens }

def BusinessChatbot.get_response (cb : BusinessChatbot) (http : HttpRequest → HttpOutcome)
    (prompt : String) (maxTokens : Nat := 200) : String :=
  handleOutcome (http (mkRequest cb prompt maxTokens))

def qnaPrompt (question : String) : String :=
  "You are a professional business assistant. Please provide a helpful and insightful answer to the following business-related question:\n\nQuestion: "
    ++ question ++ "\n\nAnswer:"

def ideasPrompt (topic : String) : String :=
  "You are a creative business strategist. Please brainstorm innovative ideas related to the following business topic:\n\nTopic: "
    ++ topic ++ "\n\nIdeas:"

def BusinessChatbot.answer_business_question (cb : BusinessChatbot)
    (http : HttpRequest → HttpOutcome) (question : String) : String :=
  cb.get_response http (qnaPrompt question) 300

def BusinessChatbot.brainstorm_ideas (cb : BusinessChatbot)
    (http : HttpRequest → HttpOutcome) (topic : String) : String :=
  cb.get_response http (ideasPrompt topic) 400

/-! ## The page handlers of `main` -/

/-- The Business Q&A tab, pressed "Get Answer": the displayed messages and the
requests issued. -/
def qaTab (cb : BusinessChatbot) (http : HttpRequest → HttpOutcome)
    (question : String) : List String × List HttpRequest :=
  if pyStrip question == "" then (["Please enter a valid question."], [])
  else
    (["Here\x27s your answer:", cb.answer_business_question http question],
     [mkRequest cb (qnaPrompt question) 300])

/-- The Idea Brainstorming tab, pressed "Generate Ideas". -/
def ideasTab (cb : BusinessChatbot) (http : HttpRequest → HttpOutcome)
    (topic : String) : List String × List HttpRequest :=
  if pyStrip topic == "" then (["Please enter a valid topic."], [])
  else
    (["Here are some innovative ideas:", cb.brainstorm_ideas http topic],
     [mkRequest cb (ideasPrompt topic) 400])

/-- The chat interface: `st.chat_input` yields `none` (nothing submitted) or a
string, guarded by Python truthiness (`if user_input:`, false exactly for `""`).
Returns the new chat history and the requests issued. -/
def chatTurn (cb : BusinessChatbot) (http : HttpRequest → HttpOutcome)
    (hist : List (String × String)) (userInput : Option String) :
    List (String × String) × List HttpRequest :=
  match userInput with
  | none => (hist, [])
  | some s =>
    if s == "" then (hist, [])
    else
      (hist ++ [("user", s), ("assistant", cb.answer_business_question http s)],
       [mkRequest cb (qnaPrompt s) 300])

/-! ## Session state -/

structure SessionState where
  logged_in : Bool
  username : String
  chat_history : List (String × String)

def initState : SessionState := ⟨false, "", []⟩

/-- Submission of the login form: the new state and the message displayed. -/
def loginSubmit (s : SessionState) (u p : String) : SessionState × List String :=
  if verify_password u p then
    ({ s with logged_in := true, username := u }, ["Logged in successfully!"])
  else (s, ["Invalid username or password."])

def logoutClick (_s : SessionState) : SessionState := ⟨false, "", []⟩

inductive Event where
  | login (u p : String)
  | logout
  | chat (userInput : Option String)

/-- One rerun of the page: the login form exists only when logged out, the
logout button and chat input only when logged in. -/
def step (cb : BusinessChatbot) (http : HttpRequest → HttpOutcome)
    (s : SessionState) : Event → SessionState
  | .login u p => if s.logged_in then s else (loginSubmit s u p).1
  | .logout => if s.logged_in then logoutClick s else s
  | .chat userInput =>
    if s.logged_in then
      { s with chat_history := (chatTurn cb http s.chat_history userInput).1 }
    else s

def run (cb : BusinessChatbot) (http : HttpRequest → HttpOutcome)
    (evs : List Event) : SessionState :=
  evs.foldl (step cb http) initState

/-- The chat transcript alternates a `"user"` entry and an `"assistant"` entry. -/
def wellFormed : List (String × String) → Bool
  | [] => true
  | [_] => false
  | (r1, _) :: (r2, _) :: rest => r1 == "user" && (r2 == "assistant" && wellFormed rest)

/-! ## Concrete instances used by witnesses and counterexamples -/

def cb0 : BusinessChatbot := ⟨"testkey", "https://integrate.api.nvidia.com/v1"⟩

def httpDown : HttpRequest → HttpOutcome := fun _ => .netErr

def goodBody : JVal :=
  .jobj [("choices", .jarr [.jobj [("text", .jstr "  Hello World  ")]])]

def http304 : HttpRequest → HttpOutcome := fun _ => .resp 304 (some goodBody)

def http500 : HttpRequest → HttpOutcome := fun _ => .resp 500 none

def http200 : HttpRequest → HttpOutcome := fun _ => .resp 200 (some goodBody)

/-! ## Sanity checks of the hash embedding (FIPS 180-4 test vectors) -/

set_option maxRecDepth 8000

theorem sha256hex_abc :
    sha256hex "abc" = "ba7816bf8f01cfea414140de5dae2223b00361a396177a9cb410ff61f20015ad" := by
  decide

theorem sha256hex_empty :
    sha256hex "" = "e3b0c44298fc1c149afbf4c8996fb92427ae41e4649b934ca495991b7852b855" := by
  decide

/-! ## C1: the credential verifier -/

/-- C1: `verify_password` returns `false` whenever the username is not a key of
the static `users` table; when it is a key, it returns `true` iff the SHA-256
hex digest of the submitted password equals the stored digest; in particular it
accepts the two registered (username, password) pairs. -/
theorem verify_password_spec :
    (∀ u p, users.lookup u = none → verify_password u p = false) ∧
    (∀ u p d, users.lookup u = some d → (verify_password u p = true ↔ sha256hex p = d)) ∧
    verify_password "Moin" "user1" = true ∧ verify_password "user2" "password2" = true := by
  refine ⟨?_, ?_, by decide, by decide⟩
  · intro u p h
    simp [verify_password, h]
  · intro u p d h
    unfold verify_password
    rw [h]
    simp only [beq_iff_eq]
    exact eq_comm

/-- C1 witness: the general clauses of `verify_password_spec` instantiated at an
unregistered username and at the registered username `"Moin"`. -/
theorem verify_password_spec_inst :
    verify_password "ghost" "pw" = false ∧
    (verify_password "Moin" "abc" = true ↔ sha256hex "abc" = sha256hex "user1") :=
  ⟨verify_password_spec.1 "ghost" "pw" rfl,
   verify_password_spec.2.1 "Moin" "abc" (sha256hex "user1") rfl⟩

/-! ## C10: a stored digest does not authenticate -/

/-- C10: for each registered username, submitting the stored digest itself as
the password is rejected, because the digest is hashed again and the SHA-256
hex digest of a stored digest string differs from that stored digest. -/
theorem verify_digest_as_password_spec :
    verify_password "Moin" (sha256hex "user1") = false ∧
    verify_password "user2" (sha256hex "password2") = false ∧
    sha256hex (sha256hex "user1") ≠ sha256hex "user1" ∧
    sha256hex (sha256hex "password2") ≠ sha256hex "password2" := by
  refine ⟨by decide, by decide, by decide, by decide⟩

/-! ## C9: a failed login leaves the session state unchanged -/

/-- C9: when `verify_password` rejects the submitted credentials, the login
handler returns the session state unchanged (login flag, username and chat
history untouched) and displays only the invalid-credentials error message. -/
theorem failed_login_frame_spec :
    ∀ (s : SessionState) (u p : String), verify_password u p = false →
      loginSubmit s u p = (s, ["Invalid username or password."]) := by
  intro s u p h
  simp [loginSubmit, h]

/-- C9 witness: `failed_login_frame_spec` at the initial state and an
unregistered username. -/
theorem failed_login_frame_inst :
    loginSubmit initState "ghost" "pw" = (initState, ["Invalid username or password."]) :=
  failed_login_frame_spec initState "ghost" "pw" rfl

/-! ## C6: a missing API key halts construction -/

/-- C6: when the API key is absent from the secrets store, the constructor
emits the operator-visible error messages and halts (no chatbot value is
produced, so no request can ever be issued); conversely any constructed
chatbot carries a key that was present in the configuration. -/
theorem initChatbot_spec :
    (∀ secrets, secrets.lookup "NVIDIA_API_KEY" = none →
       initChatbot secrets =
         .halted ["NVIDIA_API_KEY not found in Streamlit secrets.",
                  "Server configuration error. Please contact the administrator."]) ∧
    (∀ secrets cb, initChatbot secrets = .ok cb →
       secrets.lookup "NVIDIA_API_KEY" = some cb.api_key) := by
  constructor
  · intro secrets h
    simp [initChatbot, h]
  · intro secrets cb h
    unfold initChatbot at h
    cases hk : secrets.lookup "NVIDIA_API_KEY" with
    | none => rw [hk] at h; exact absurd h (by simp)
    | some k =>
      rw [hk] at h
      cases h
      rfl

/-- C6 witness: `initChatbot_spec` at an empty secrets store and at one holding
the key. -/
theorem initChatbot_spec_inst :
    initChatbot [] =
      InitOutcome.halted ["NVIDIA_API_KEY not found in Streamlit secrets.",
                          "Server configuration error. Please contact the administrator."] ∧
    [("NVIDIA_API_KEY", "k")].lookup "NVIDIA_API_KEY" = some "k" :=
  ⟨initChatbot_spec.1 [] rfl,
   initChatbot_spec.2 [("NVIDIA_API_KEY", "k")]
     ⟨"k", "https://integrate.api.nvidia.com/v1"⟩ rfl⟩

/-! ## C2: error handling of `get_response` -/

/-- C2 counterexample: the claim says every non-2xx status yields the fallback
string, but `raise_for_status` raises only for statuses 400–599, so a 304
response with a well-formed body makes `get_response` return the trimmed text,
not the fallback. -/
theorem get_response_non2xx_cex :
    cb0.get_response http304 "p" 5 = "Hello World" ∧
    ¬(200 ≤ 304 ∧ 304 < 300) ∧
    "Hello World" ≠ errMsg :=
  ⟨rfl, by decide, by decide⟩

/-- C2 (amended): `get_response` returns the fallback string on a network
error and on any status 400–599; for every other status it returns the
trimmed `choices[0].text` when the body is well-formed JSON containing that
string field (in particular on every 2xx), and the fallback string when the
body is malformed or the field is missing; it never raises and issues exactly
the one request. -/
theorem get_response_outcome_spec :
    ∀ (cb : BusinessChatbot) (http : HttpRequest → HttpOutcome) (prompt : String) (mt : Nat),
      (http (mkRequest cb prompt mt) = .netErr → cb.get_response http prompt mt = errMsg) ∧
      (∀ status body, http (mkRequest cb prompt mt) = .resp status body →
        400 ≤ status → status < 600 → cb.get_response http prompt mt = errMsg) ∧
      (∀ status body, http (mkRequest cb prompt mt) = .resp status body →
        ¬(400 ≤ status ∧ status < 600) →
        cb.get_response http prompt mt =
          (match body with
           | none => errMsg
           | some j =>
             match extractText j with
             | some t => pyStrip t
             | none => errMsg)) := by
  intro cb http prompt mt
  refine ⟨?_, ?_, ?_⟩
  · intro h
    simp [BusinessChatbot.get_response, h, handleOutcome]
  · intro status body h h1 h2
    simp [BusinessChatbot.get_response, h, handleOutcome, h1, h2]
  · intro status body h hn
    simp [BusinessChatbot.get_response, h, handleOutcome, hn]

/-- C2 witness: the three clauses of `get_response_outcome_spec` at concrete
oracles: a network error, a 500 with malformed body, and a 200 whose body
holds `choices[0].text = "  Hello World  "` (returned trimmed). -/
theorem get_response_outcome_inst :
    cb0.get_response httpDown "p" 5 = errMsg ∧
    cb0.get_response http500 "p" 5 = errMsg ∧
    cb0.get_response http200 "p" 5 = "Hello World" :=
  ⟨(get_response_outcome_spec cb0 httpDown "p" 5).1 rfl,
   (get_response_outcome_spec cb0 http500 "p" 5).2.1 500 none rfl (by decide) (by decide),
   (get_response_outcome_spec cb0 http200 "p" 5).2.2 200 (some goodBody) rfl (by decide)⟩

/-! ## C3: the request body -/

/-- C3: the JSON body of the request built for a prompt and a max_tokens value
carries exactly that prompt, that max_tokens, the constants temperature 0.7,
top_p 0.95, stream false and the fixed model identifier, and no other field;
the request goes to `{endpoint}/completions`. -/
theorem requestBody_spec :
    ∀ (cb : BusinessChatbot) (prompt : String) (mt : Nat),
      (mkRequest cb prompt mt).url = cb.base_url ++ "/completions" ∧
      (mkRequest cb prompt mt).body.lookup "prompt" = some (.jstr prompt) ∧
      (mkRequest cb prompt mt).body.lookup "max_tokens" = some (.jint mt) ∧
      (mkRequest cb prompt mt).body.lookup "temperature" = some (.jflt (0.7 : ℚ)) ∧
      (mkRequest cb prompt mt).body.lookup "top_p" = some (.jflt (0.95 : ℚ)) ∧
      (mkRequest cb prompt mt).body.lookup "stream" = some (.jbool false) ∧
      (mkRequest cb prompt mt).body.lookup "model" =
        some (.jstr "nvidia/mistral-nemo-minitron-8b-base") ∧
      (mkRequest cb prompt mt).body.map Prod.fst =
        ["model", "prompt", "temperature", "top_p", "max_tokens", "stream"] := by
  intro cb prompt mt
  exact ⟨rfl, rfl, rfl, rfl, rfl, rfl, rfl, rfl⟩

/-! ## C4: the two prompt-template wrappers -/

/-- C4: `answer_business_question` delegates to `get_response` with
max_tokens 300 and a prompt containing `"Question: "` immediately followed by
the question; `brainstorm_ideas` delegates with max_tokens 400 and a prompt
containing `"Topic: "` immediately followed by the topic. -/
theorem wrappers_prompt_spec :
    ∀ (cb : BusinessChatbot) (http : HttpRequest → HttpOutcome) (q t : String),
      cb.answer_business_question http q = cb.get_response http (qnaPrompt q) 300 ∧
      (∃ pre suf, qnaPrompt q = (pre ++ ("Question: " ++ q)) ++ suf) ∧
      cb.brainstorm_ideas http t = cb.get_response http (ideasPrompt t) 400 ∧
      (∃ pre suf, ideasPrompt t = (pre ++ ("Topic: " ++ t)) ++ suf) := by
  intro cb http q t
  refine ⟨rfl,
    ⟨"You are a professional business assistant. Please provide a helpful and insightful answer to the following business-related question:\n\n",
     "\n\nAnswer:", ?_⟩, rfl,
    ⟨"You are a creative business strategist. Please brainstorm innovative ideas related to the following business topic:\n\n",
     "\n\nIdeas:", ?_⟩⟩
  · rw [← String.append_assoc]
    rfl
  · rw [← String.append_assoc]
    rfl

/-! ## C5: generic chat turns -/

/-- C5 counterexample: a generic chat turn issues its request through
`answer_business_question`, so the request it sends carries max_tokens 300,
not the 200 default the claim states. -/
theorem chat_turn_tokens_cex :
    (chatTurn cb0 httpDown [] (some "hello")).2 = [mkRequest cb0 (qnaPrompt "hello") 300] ∧
    (mkRequest cb0 (qnaPrompt "hello") 300).body.lookup "max_tokens" = some (.jint 300) ∧
    JVal.jint 300 ≠ JVal.jint 200 := by
  refine ⟨rfl, rfl, by simp⟩

/-- C5 (amended): every accepted generic chat turn reuses the Business Q&A
instructional template as its prompt but requests max_tokens 300 (the Q&A
wrapper's value, not the 200 default of `get_response`, which no caller
uses). -/
theorem chat_turn_spec :
    ∀ (cb : BusinessChatbot) (http : HttpRequest → HttpOutcome)
      (hist : List (String × String)) (x : String), x ≠ "" →
      (chatTurn cb http hist (some x)).1
        = hist ++ [("user", x), ("assistant", cb.get_response http (qnaPrompt x) 300)] ∧
      (chatTurn cb http hist (some x)).2 = [mkRequest cb (qnaPrompt x) 300] ∧
      (mkRequest cb (qnaPrompt x) 300).body.lookup "max_tokens" = some (.jint 300) := by
  intro cb http hist x hx
  have hbe : (x == "") = false := by simpa using hx
  exact ⟨by simp [chatTurn, hbe, BusinessChatbot.answer_business_question],
         by simp [chatTurn, hbe], rfl⟩

/-- C5 witness: `chat_turn_spec` at a concrete chat submission. -/
theorem chat_turn_spec_inst :
    (chatTurn cb0 httpDown [] (some "hello")).1
      = [("user", "hello"), ("assistant", cb0.get_response httpDown (qnaPrompt "hello") 300)] ∧
    (chatTurn cb0 httpDown [] (some "hello")).2 = [mkRequest cb0 (qnaPrompt "hello") 300] ∧
    (mkRequest cb0 (qnaPrompt "hello") 300).body.lookup "max_tokens" = some (.jint 300) :=
  chat_turn_spec cb0 httpDown [] "hello" (by decide)

/-! ## C7: blank input -/

/-- C7 counterexample: the chat interface guards only with Python truthiness,
so a whitespace-only chat message — blank in the claim's sense, as
`pyStrip " " = ""` shows — is not rejected: a completion request is issued. -/
theorem blank_chat_input_cex :
    (chatTurn cb0 httpDown [] (some " ")).2 = [mkRequest cb0 (qnaPrompt " ") 300] ∧
    pyStrip " " = "" ∧
    [mkRequest cb0 (qnaPrompt " ") 300] ≠ ([] : List HttpRequest) := by
  refine ⟨rfl, rfl, by simp⟩

/-- C7 (amended): a blank (empty or whitespace-only) question or topic in the
two tabs is rejected with an error message and no request issued; in the chat
interface only a missing submission or the empty string is skipped (silently,
with no error message and no request) — a whitespace-only chat message is not
rejected. -/
theorem blank_input_spec :
    ∀ (cb : BusinessChatbot) (http : HttpRequest → HttpOutcome),
      (∀ q, pyStrip q = "" → qaTab cb http q = (["Please enter a valid question."], [])) ∧
      (∀ t, pyStrip t = "" → ideasTab cb http t = (["Please enter a valid topic."], [])) ∧
      (∀ hist, (chatTurn cb http hist none).2 = [] ∧
        (chatTurn cb http hist (some "")).2 = []) := by
  intro cb http
  refine ⟨?_, ?_, fun hist => ⟨rfl, rfl⟩⟩
  · intro q h
    simp [qaTab, h]
  · intro t h
    simp [ideasTab, h]

/-- C7 witness: `blank_input_spec` at whitespace-only inputs. -/
theorem blank_input_spec_inst :
    qaTab cb0 httpDown "  " = (["Please enter a valid question."], []) ∧
    ideasTab cb0 httpDown "\t" = (["Please enter a valid topic."], []) ∧
    (chatTurn cb0 httpDown [] none).2 = [] :=
  ⟨(blank_input_spec cb0 httpDown).1 "  " rfl,
   (blank_input_spec cb0 httpDown).2.1 "\t" rfl,
   ((blank_input_spec cb0 httpDown).2.2 []).1⟩

/-! ## C8: the chat-history invariant -/

theorem wellFormed_append :
    ∀ (h : List (String × String)) (a b : String), wellFormed h = true →
      wellFormed (h ++ [("user", a), ("assistant", b)]) = true := by
  intro h a b
  induction h using wellFormed.induct with
  | _ => simp_all [wellFormed]

theorem step_inv (cb : BusinessChatbot) (http : HttpRequest → HttpOutcome)
    (s : SessionState) (e : Event)
    (h1 : s.logged_in = false → s.chat_history = [])
    (h2 : wellFormed s.chat_history = true) :
    ((step cb http s e).logged_in = false → (step cb http s e).chat_history = []) ∧
    wellFormed (step cb http s e).chat_history = true := by
  cases e with
  | login u p =>
    by_cases hl : s.logged_in
    · simp [step, hl, h1, h2]
    · by_cases hv : verify_password u p <;>
        simp [step, hl, loginSubmit, hv, h1, h2, wellFormed]
  | logout =>
    by_cases hl : s.logged_in <;> simp [step, logoutClick, hl, h1, h2, wellFormed]
  | chat userInput =>
    by_cases hl : s.logged_in
    · cases userInput with
      | none => simp [step, chatTurn, hl, h1, h2]
      | some x =>
        by_cases he : x == ""
        · simp [step, chatTurn, hl, he, h1, h2]
        · simp [step, chatTurn, hl, he, wellFormed_append _ _ _ h2]
    · simp [step, hl, h1, h2, wellFormed]

theorem runFrom_inv (cb : BusinessChatbot) (http : HttpRequest → HttpOutcome) :
    ∀ (evs : List Event) (s : SessionState),
      (s.logged_in = false → s.chat_history = []) → wellFormed s.chat_history = true →
      ((evs.foldl (step cb http) s).logged_in = false →
        (evs.foldl (step cb http) s).chat_history = []) ∧
      wellFormed ((evs.foldl (step cb http) s)).chat_history = true := by
  intro evs
  induction evs with
  | nil => intro s h1 h2; exact ⟨h1, h2⟩
  | cons e rest ih =>
    intro s h1 h2
    have hstep := step_inv cb http s e h1 h2
    exact ih (step cb http s e) hstep.1 hstep.2

/-- C8: over every event sequence the chat transcript alternates user and
assistant entries in call order; each accepted chat submission appends exactly
a user turn then an assistant turn; every step either extends the transcript
at the end or is the logout clearing it whole; and a logout followed by a new
login always yields an empty transcript. -/
theorem chat_history_invariant_spec :
    ∀ (cb : BusinessChatbot) (http : HttpRequest → HttpOutcome),
      (∀ evs, wellFormed (run cb http evs).chat_history = true) ∧
      (∀ (s : SessionState) (x : String), s.logged_in = true → x ≠ "" →
        (step cb http s (.chat (some x))).chat_history
          = s.chat_history ++ [("user", x), ("assistant", cb.answer_business_question http x)]) ∧
      (∀ (s : SessionState) (e : Event),
        (∃ t2, (step cb http s e).chat_history = s.chat_history ++ t2) ∨
        (e = .logout ∧ (step cb http s e).chat_history = [])) ∧
      (∀ evs u p, (run cb http (evs ++ [.logout, .login u p])).chat_history = []) := by
  intro cb http
  refine ⟨?_, ?_, ?_, ?_⟩
  · intro evs
    exact (runFrom_inv cb http evs initState (fun _ => rfl) rfl).2
  · intro s x hl hx
    have hbe : (x == "") = false := by simpa using hx
    simp [step, hl, chatTurn, hbe]
  · intro s e
    cases e with
    | login u p =>
      left
      by_cases hl : s.logged_in
      · exact ⟨[], by simp [step, hl]⟩
      · by_cases hv : verify_password u p <;>
          exact ⟨[], by simp [step, hl, loginSubmit, hv]⟩
    | logout =>
      by_cases hl : s.logged_in
      · exact Or.inr ⟨rfl, by simp [step, hl, logoutClick]⟩
      · exact Or.inl ⟨[], by simp [step, hl]⟩
    | chat userInput =>
      left
      by_cases hl : s.logged_in
      · cases userInput with
        | none => exact ⟨[], by simp [step, chatTurn, hl]⟩
        | some x =>
          by_cases he : x == ""
          · exact ⟨[], by simp [step, chatTurn, hl, he]⟩
          · exact ⟨[("user", x), ("assistant", cb.answer_business_question http x)],
              by simp [step, chatTurn, hl, he]⟩
      · exact ⟨[], by simp [step, hl]⟩
  · intro evs u p
    have hrun := runFrom_inv cb http evs initState (fun _ => rfl) rfl
    simp only [run, List.foldl_append, List.foldl_cons, List.foldl_nil]
    generalize hgen : evs.foldl (step cb http) initState = s at hrun
    by_cases hl : s.logged_in
    · have h3 : step cb http s Event.logout = ⟨false, "", []⟩ := by
        simp [step, hl, logoutClick]
      rw [h3]
      by_cases hv : verify_password u p <;> simp [step, loginSubmit, hv]
    · have hep : s.chat_history = [] := hrun.1 (by simpa using hl)
      have h3 : step cb http s Event.logout = s := by simp [step, hl]
      rw [h3]
      by_cases hv : verify_password u p <;> simp [step, hl, loginSubmit, hv, hep]

/-- C8 witness: the append clause of `chat_history_invariant_spec` at a
concrete logged-in state and chat message. -/
theorem chat_history_invariant_inst :
    (step cb0 httpDown ⟨true, "Moin", []⟩ (.chat (some "hi"))).chat_history
      = [("user", "hi"), ("assistant", cb0.answer_business_question httpDown "hi")] :=
  (chat_history_invariant_spec cb0 httpDown).2.1 ⟨true, "Moin", []⟩ "hi" rfl (by decide)
